import Mathlib

/-!
Verification of the cleave screen-capture tool's core logic against its
natural-language specification.

The Rust sources are shallowly embedded:
* strings are lists of characters (`Str`); all inputs the spec talks about
  are ASCII, so ASCII-only case conversion and whitespace trimming coincide
  with Rust's Unicode-aware `to_uppercase`/`trim` on every value considered;
* the bitflag type `keyboard_types::Modifiers` (a `u32` bitset) is embedded
  as `Nat` with the crate's bit constants; all operations keep values below
  `2 ^ 32`;
* `f32` screen coordinates are embedded as `ℚ`; every claim evaluates the
  code only on small dyadic values (integers, halves, tenths within `f32`
  exactness for the rounding directions involved), where `f32` arithmetic
  agrees with exact arithmetic;
* fallible Rust functions returning `Result` become `Except`.
-/

/-- Rust `&str`, embedded as its character list. -/
abbrev Str := List Char

/-- Character list of a Lean string literal. -/
def str (s : String) : Str := s.data

/-- ASCII uppercase of one character (Rust `char::to_uppercase` on ASCII). -/
def upChar (c : Char) : Char :=
  if 'a' ≤ c ∧ c ≤ 'z' then Char.ofNat (c.toNat - 32) else c

/-- Rust `str::to_uppercase`, restricted to ASCII text. -/
def toUpper (s : Str) : Str := s.map upChar

/-- ASCII whitespace (the cases of Rust `char::is_whitespace` arising here). -/
def isWs (c : Char) : Bool := c = ' ' ∨ c = '\t' ∨ c = '\n' ∨ c = '\r'

/-- Rust `str::trim`: drop leading and trailing whitespace. -/
def trim (s : Str) : Str := ((s.dropWhile isWs).reverse.dropWhile isWs).reverse

/-- Helper for `splitPlus`, accumulating the current segment reversed. -/
def splitPlusAux : Str → Str → List Str
  | [], acc => [acc.reverse]
  | c :: rest, acc =>
    if c = '+' then acc.reverse :: splitPlusAux rest []
    else splitPlusAux rest (c :: acc)

/-- Rust `str::split('+')`: segments between the `+` separators
(an empty input yields one empty segment). -/
def splitPlus (s : Str) : List Str := splitPlusAux s []

namespace Modifiers

/-! Bit constants of `keyboard_types::Modifiers` (a `bitflags` over `u32`). -/

def ALT : Nat := 0x1
def CONTROL : Nat := 0x8
def META : Nat := 0x40
def SHIFT : Nat := 0x200
def SUPER : Nat := 0x2000

/-- `src/src/hotkey.rs`: `CMD_OR_CTRL` is `CONTROL` on non-macOS targets
(the `#[cfg(not(target_os = "macos"))]` arm is modelled). -/
def CMD_OR_CTRL : Nat := CONTROL

/-- `bitflags` `contains`: all bits of `f` are set in `m`. -/
def contains (m f : Nat) : Bool := m &&& f == f

/-- `bitflags` `remove`: `m & !f` with a `u32` complement. -/
def remove (m f : Nat) : Nat := m &&& (0xFFFFFFFF ^^^ f)

/-- `bitflags` `insert`: `m | f`. -/
def insert (m f : Nat) : Nat := m ||| f

/-- The mask `SHIFT | CONTROL | ALT | SUPER` used by `HotKey::matches`. -/
def base : Nat := SHIFT ||| CONTROL ||| ALT ||| SUPER

end Modifiers

/-- The `keyboard_types::Code` constructors reachable in this program:
every key of the grammar table in `src/src/hotkey.rs::parse_key` plus the
modifier codes produced by `keycode_to_code` in `src/src/main.rs`. -/
inductive Code
  | Backquote | Backslash | BracketLeft | BracketRight | Pause | Comma
  | Digit0 | Digit1 | Digit2 | Digit3 | Digit4
  | Digit5 | Digit6 | Digit7 | Digit8 | Digit9
  | Equal
  | KeyA | KeyB | KeyC | KeyD | KeyE | KeyF | KeyG | KeyH | KeyI | KeyJ
  | KeyK | KeyL | KeyM | KeyN | KeyO | KeyP | KeyQ | KeyR | KeyS | KeyT
  | KeyU | KeyV | KeyW | KeyX | KeyY | KeyZ
  | Minus | Period | Quote | Semicolon | Slash
  | Backspace | CapsLock | Enter | Space | Tab
  | Delete | End | Home | Insert | PageDown | PageUp
  | PrintScreen | ScrollLock
  | ArrowDown | ArrowLeft | ArrowRight | ArrowUp
  | NumLock
  | Numpad0 | Numpad1 | Numpad2 | Numpad3 | Numpad4
  | Numpad5 | Numpad6 | Numpad7 | Numpad8 | Numpad9
  | NumpadAdd | NumpadDecimal | NumpadDivide | NumpadEnter
  | NumpadEqual | NumpadMultiply | NumpadSubtract
  | Escape
  | F1 | F2 | F3 | F4 | F5 | F6 | F7 | F8 | F9 | F10 | F11 | F12
  | AudioVolumeDown | AudioVolumeUp | AudioVolumeMute
  | MediaPlay | MediaPause | MediaPlayPause | MediaStop
  | MediaTrackNext | MediaTrackPrevious
  | F13 | F14 | F15 | F16 | F17 | F18 | F19 | F20
  | F21 | F22 | F23 | F24
  | ControlLeft | ControlRight | ShiftLeft | ShiftRight
  | AltLeft | AltRight | MetaLeft | MetaRight
  deriving DecidableEq

/-- `Display` of `keyboard_types::Code`: the W3C code string, which is the
variant name itself. -/
def keyName : Code → String
  | .Backquote => "Backquote" | .Backslash => "Backslash"
  | .BracketLeft => "BracketLeft" | .BracketRight => "BracketRight"
  | .Pause => "Pause" | .Comma => "Comma"
  | .Digit0 => "Digit0" | .Digit1 => "Digit1" | .Digit2 => "Digit2"
  | .Digit3 => "Digit3" | .Digit4 => "Digit4" | .Digit5 => "Digit5"
  | .Digit6 => "Digit6" | .Digit7 => "Digit7" | .Digit8 => "Digit8"
  | .Digit9 => "Digit9"
  | .Equal => "Equal"
  | .KeyA => "KeyA" | .KeyB => "KeyB" | .KeyC => "KeyC" | .KeyD => "KeyD"
  | .KeyE => "KeyE" | .KeyF => "KeyF" | .KeyG => "KeyG" | .KeyH => "KeyH"
  | .KeyI => "KeyI" | .KeyJ => "KeyJ" | .KeyK => "KeyK" | .KeyL => "KeyL"
  | .KeyM => "KeyM" | .KeyN => "KeyN" | .KeyO => "KeyO" | .KeyP => "KeyP"
  | .KeyQ => "KeyQ" | .KeyR => "KeyR" | .KeyS => "KeyS" | .KeyT => "KeyT"
  | .KeyU => "KeyU" | .KeyV => "KeyV" | .KeyW => "KeyW" | .KeyX => "KeyX"
  | .KeyY => "KeyY" | .KeyZ => "KeyZ"
  | .Minus => "Minus" | .Period => "Period" | .Quote => "Quote"
  | .Semicolon => "Semicolon" | .Slash => "Slash"
  | .Backspace => "Backspace" | .CapsLock => "CapsLock" | .Enter => "Enter"
  | .Space => "Space" | .Tab => "Tab"
  | .Delete => "Delete" | .End => "End" | .Home => "Home"
  | .Insert => "Insert" | .PageDown => "PageDown" | .PageUp => "PageUp"
  | .PrintScreen => "PrintScreen" | .ScrollLock => "ScrollLock"
  | .ArrowDown => "ArrowDown" | .ArrowLeft => "ArrowLeft"
  | .ArrowRight => "ArrowRight" | .ArrowUp => "ArrowUp"
  | .NumLock => "NumLock"
  | .Numpad0 => "Numpad0" | .Numpad1 => "Numpad1" | .Numpad2 => "Numpad2"
  | .Numpad3 => "Numpad3" | .Numpad4 => "Numpad4" | .Numpad5 => "Numpad5"
  | .Numpad6 => "Numpad6" | .Numpad7 => "Numpad7" | .Numpad8 => "Numpad8"
  | .Numpad9 => "Numpad9"
  | .NumpadAdd => "NumpadAdd" | .NumpadDecimal => "NumpadDecimal"
  | .NumpadDivide => "NumpadDivide" | .NumpadEnter => "NumpadEnter"
  | .NumpadEqual => "NumpadEqual" | .NumpadMultiply => "NumpadMultiply"
  | .NumpadSubtract => "NumpadSubtract"
  | .Escape => "Escape"
  | .F1 => "F1" | .F2 => "F2" | .F3 => "F3" | .F4 => "F4" | .F5 => "F5"
  | .F6 => "F6" | .F7 => "F7" | .F8 => "F8" | .F9 => "F9" | .F10 => "F10"
  | .F11 => "F11" | .F12 => "F12"
  | .AudioVolumeDown => "AudioVolumeDown" | .AudioVolumeUp => "AudioVolumeUp"
  | .AudioVolumeMute => "AudioVolumeMute"
  | .MediaPlay => "MediaPlay" | .MediaPause => "MediaPause"
  | .MediaPlayPause => "MediaPlayPause" | .MediaStop => "MediaStop"
  | .MediaTrackNext => "MediaTrackNext"
  | .MediaTrackPrevious => "MediaTrackPrevious"
  | .F13 => "F13" | .F14 => "F14" | .F15 => "F15" | .F16 => "F16"
  | .F17 => "F17" | .F18 => "F18" | .F19 => "F19" | .F20 => "F20"
  | .F21 => "F21" | .F22 => "F22" | .F23 => "F23" | .F24 => "F24"
  | .ControlLeft => "ControlLeft" | .ControlRight => "ControlRight"
  | .ShiftLeft => "ShiftLeft" | .ShiftRight => "ShiftRight"
  | .AltLeft => "AltLeft" | .AltRight => "AltRight"
  | .MetaLeft => "MetaLeft" | .MetaRight => "MetaRight"

/-- The parse errors of `src/src/hotkey.rs::HotKeyParseError`. -/
inductive HotKeyParseError
  | UnsupportedKey (token : Str)
  | EmptyToken (original : Str)
  | InvalidFormat (original : Str)
  deriving DecidableEq

/-- The key-name table of `src/src/hotkey.rs::parse_key`, as the ordered
association list the `match` realizes (uppercased token pattern, code). -/
def keyTable : List (Str × Code) :=
  [(str "BACKQUOTE", Code.Backquote), (str "`", Code.Backquote),
   (str "BACKSLASH", Code.Backslash), (str "\\", Code.Backslash),
   (str "BRACKETLEFT", Code.BracketLeft), (str "[", Code.BracketLeft),
   (str "BRACKETRIGHT", Code.BracketRight), (str "]", Code.BracketRight),
   (str "PAUSE", Code.Pause), (str "PAUSEBREAK", Code.Pause),
   (str "COMMA", Code.Comma), (str ",", Code.Comma),
   (str "DIGIT0", Code.Digit0), (str "0", Code.Digit0),
   (str "DIGIT1", Code.Digit1), (str "1", Code.Digit1),
   (str "DIGIT2", Code.Digit2), (str "2", Code.Digit2),
   (str "DIGIT3", Code.Digit3), (str "3", Code.Digit3),
   (str "DIGIT4", Code.Digit4), (str "4", Code.Digit4),
   (str "DIGIT5", Code.Digit5), (str "5", Code.Digit5),
   (str "DIGIT6", Code.Digit6), (str "6", Code.Digit6),
   (str "DIGIT7", Code.Digit7), (str "7", Code.Digit7),
   (str "DIGIT8", Code.Digit8), (str "8", Code.Digit8),
   (str "DIGIT9", Code.Digit9), (str "9", Code.Digit9),
   (str "EQUAL", Code.Equal), (str "=", Code.Equal),
   (str "KEYA", Code.KeyA), (str "A", Code.KeyA),
   (str "KEYB", Code.KeyB), (str "B", Code.KeyB),
   (str "KEYC", Code.KeyC), (str "C", Code.KeyC),
   (str "KEYD", Code.KeyD), (str "D", Code.KeyD),
   (str "KEYE", Code.KeyE), (str "E", Code.KeyE),
   (str "KEYF", Code.KeyF), (str "F", Code.KeyF),
   (str "KEYG", Code.KeyG), (str "G", Code.KeyG),
   (str "KEYH", Code.KeyH), (str "H", Code.KeyH),
   (str "KEYI", Code.KeyI), (str "I", Code.KeyI),
   (str "KEYJ", Code.KeyJ), (str "J", Code.KeyJ),
   (str "KEYK", Code.KeyK), (str "K", Code.KeyK),
   (str "KEYL", Code.KeyL), (str "L", Code.KeyL),
   (str "KEYM", Code.KeyM), (str "M", Code.KeyM),
   (str "KEYN", Code.KeyN), (str "N", Code.KeyN),
   (str "KEYO", Code.KeyO), (str "O", Code.KeyO),
   (str "KEYP", Code.KeyP), (str "P", Code.KeyP),
   (str "KEYQ", Code.KeyQ), (str "Q", Code.KeyQ),
   (str "KEYR", Code.KeyR), (str "R", Code.KeyR),
   (str "KEYS", Code.KeyS), (str "S", Code.KeyS),
   (str "KEYT", Code.KeyT), (str "T", Code.KeyT),
   (str "KEYU", Code.KeyU), (str "U", Code.KeyU),
   (str "KEYV", Code.KeyV), (str "V", Code.KeyV),
   (str "KEYW", Code.KeyW), (str "W", Code.KeyW),
   (str "KEYX", Code.KeyX), (str "X", Code.KeyX),
   (str "KEYY", Code.KeyY), (str "Y", Code.KeyY),
   (str "KEYZ", Code.KeyZ), (str "Z", Code.KeyZ),
   (str "MINUS", Code.Minus), (str "-", Code.Minus),
   (str "PERIOD", Code.Period), (str ".", Code.Period),
   (str "QUOTE", Code.Quote), (str "'", Code.Quote),
   (str "SEMICOLON", Code.Semicolon), (str ";", Code.Semicolon),
   (str "SLASH", Code.Slash), (str "/", Code.Slash),
   (str "BACKSPACE", Code.Backspace),
   (str "CAPSLOCK", Code.CapsLock),
   (str "ENTER", Code.Enter),
   (str "SPACE", Code.Space),
   (str "TAB", Code.Tab),
   (str "DELETE", Code.Delete),
   (str "END", Code.End),
   (str "HOME", Code.Home),
   (str "INSERT", Code.Insert),
   (str "PAGEDOWN", Code.PageDown),
   (str "PAGEUP", Code.PageUp),
   (str "PRINTSCREEN", Code.PrintScreen),
   (str "SCROLLLOCK", Code.ScrollLock),
   (str "ARROWDOWN", Code.ArrowDown), (str "DOWN", Code.ArrowDown),
   (str "ARROWLEFT", Code.ArrowLeft), (str "LEFT", Code.ArrowLeft),
   (str "ARROWRIGHT", Code.ArrowRight), (str "RIGHT", Code.ArrowRight),
   (str "ARROWUP", Code.ArrowUp), (str "UP", Code.ArrowUp),
   (str "NUMLOCK", Code.NumLock),
   (str "NUMPAD0", Code.Numpad0), (str "NUM0", Code.Numpad0),
   (str "NUMPAD1", Code.Numpad1), (str "NUM1", Code.Numpad1),
   (str "NUMPAD2", Code.Numpad2), (str "NUM2", Code.Numpad2),
   (str "NUMPAD3", Code.Numpad3), (str "NUM3", Code.Numpad3),
   (str "NUMPAD4", Code.Numpad4), (str "NUM4", Code.Numpad4),
   (str "NUMPAD5", Code.Numpad5), (str "NUM5", Code.Numpad5),
   (str "NUMPAD6", Code.Numpad6), (str "NUM6", Code.Numpad6),
   (str "NUMPAD7", Code.Numpad7), (str "NUM7", Code.Numpad7),
   (str "NUMPAD8", Code.Numpad8), (str "NUM8", Code.Numpad8),
   (str "NUMPAD9", Code.Numpad9), (str "NUM9", Code.Numpad9),
   (str "NUMPADADD", Code.NumpadAdd), (str "NUMADD", Code.NumpadAdd),
   (str "NUMPADPLUS", Code.NumpadAdd), (str "NUMPLUS", Code.NumpadAdd),
   (str "NUMPADDECIMAL", Code.NumpadDecimal), (str "NUMDECIMAL", Code.NumpadDecimal),
   (str "NUMPADDIVIDE", Code.NumpadDivide), (str "NUMDIVIDE", Code.NumpadDivide),
   (str "NUMPADENTER", Code.NumpadEnter), (str "NUMENTER", Code.NumpadEnter),
   (str "NUMPADEQUAL", Code.NumpadEqual), (str "NUMEQUAL", Code.NumpadEqual),
   (str "NUMPADMULTIPLY", Code.NumpadMultiply), (str "NUMMULTIPLY", Code.NumpadMultiply),
   (str "NUMPADSUBTRACT", Code.NumpadSubtract), (str "NUMSUBTRACT", Code.NumpadSubtract),
   (str "ESCAPE", Code.Escape), (str "ESC", Code.Escape),
   (str "F1", Code.F1), (str "F2", Code.F2), (str "F3", Code.F3), (str "F4", Code.F4),
   (str "F5", Code.F5), (str "F6", Code.F6), (str "F7", Code.F7), (str "F8", Code.F8),
   (str "F9", Code.F9), (str "F10", Code.F10), (str "F11", Code.F11), (str "F12", Code.F12),
   (str "AUDIOVOLUMEDOWN", Code.AudioVolumeDown), (str "VOLUMEDOWN", Code.AudioVolumeDown),
   (str "AUDIOVOLUMEUP", Code.AudioVolumeUp), (str "VOLUMEUP", Code.AudioVolumeUp),
   (str "AUDIOVOLUMEMUTE", Code.AudioVolumeMute), (str "VOLUMEMUTE", Code.AudioVolumeMute),
   (str "MEDIAPLAY", Code.MediaPlay),
   (str "MEDIAPAUSE", Code.MediaPause),
   (str "MEDIAPLAYPAUSE", Code.MediaPlayPause),
   (str "MEDIASTOP", Code.MediaStop),
   (str "MEDIATRACKNEXT", Code.MediaTrackNext),
   (str "MEDIATRACKPREV", Code.MediaTrackPrevious),
   (str "MEDIATRACKPREVIOUS", Code.MediaTrackPrevious),
   (str "F13", Code.F13), (str "F14", Code.F14), (str "F15", Code.F15), (str "F16", Code.F16),
   (str "F17", Code.F17), (str "F18", Code.F18), (str "F19", Code.F19), (str "F20", Code.F20),
   (str "F21", Code.F21), (str "F22", Code.F22), (str "F23", Code.F23), (str "F24", Code.F24)]

/-- `src/src/hotkey.rs::parse_key`: uppercase the token and look it up;
an unmatched token is `UnsupportedKey` carrying the token as given. -/
def parse_key (key : Str) : Except HotKeyParseError Code :=
  match keyTable.lookup (toUpper key) with
  | some c => .ok c
  | none => .error (.UnsupportedKey key)

/-- The modifier alias table of the `match` in
`src/src/hotkey.rs::parse_hotkey` (uppercased alias, modifier bits).
Note there is no `META` arm in this file. -/
def modTable : List (Str × Nat) :=
  [(str "OPTION", Modifiers.ALT), (str "ALT", Modifiers.ALT),
   (str "CONTROL", Modifiers.CONTROL), (str "CTRL", Modifiers.CONTROL),
   (str "COMMAND", Modifiers.SUPER), (str "CMD", Modifiers.SUPER),
   (str "SUPER", Modifiers.SUPER),
   (str "SHIFT", Modifiers.SHIFT),
   (str "COMMANDORCONTROL", Modifiers.CMD_OR_CTRL),
   (str "COMMANDORCTRL", Modifiers.CMD_OR_CTRL),
   (str "CMDORCTRL", Modifiers.CMD_OR_CTRL),
   (str "CMDORCONTROL", Modifiers.CMD_OR_CTRL)]

/-- `keyboard_types::Code` numeric value (`key as u32` in `HotKey::new`);
the discriminant follows this embedding's constructor order. No claim
depends on the particular numbering, only on its determinism. -/
def codeVal (c : Code) : Nat := Code.toCtorIdx c

/-- `src/src/hotkey.rs::HotKey`. -/
structure HotKey where
  mods : Nat
  key : Code
  id : Nat
  deriving DecidableEq

/-- `HotKey::new`: default missing modifiers to empty, replace `META` by
`SUPER`, and derive the id from the sanitized modifiers and the key. -/
def HotKey.new (mods? : Option Nat) (key : Code) : HotKey :=
  let m0 := mods?.getD 0
  let m :=
    if Modifiers.contains m0 Modifiers.META then
      Modifiers.insert (Modifiers.remove m0 Modifiers.META) Modifiers.SUPER
    else m0
  { mods := m, key := key, id := (m <<< 16) ||| codeVal key }

/-- `HotKey::matches`: compare against the held modifiers masked to the
base four, and the key. -/
def HotKey.matches (h : HotKey) (modifiers : Nat) (key : Code) : Bool :=
  h.mods == (modifiers &&& Modifiers.base) && h.key == key

/-- `HotKey::into_string`: fixed-order modifier words, then the key's
`Display` name. -/
def HotKey.into_string (h : HotKey) : Str :=
  (if Modifiers.contains h.mods Modifiers.SHIFT then str "shift+" else []) ++
  (if Modifiers.contains h.mods Modifiers.CONTROL then str "control+" else []) ++
  (if Modifiers.contains h.mods Modifiers.ALT then str "alt+" else []) ++
  (if Modifiers.contains h.mods Modifiers.SUPER then str "super+" else []) ++
  str (keyName h.key)

/-- The token loop of `src/src/hotkey.rs::parse_hotkey` (the multi-token
arm): per token, trim; a blank token is `EmptyToken`; a token after the
main key is `InvalidFormat`; otherwise match the modifier alias table or
parse as the main key. At the end a missing main key is `InvalidFormat`. -/
def parseTokens (orig : Str) :
    List Str → Nat → Option Code → Except HotKeyParseError (Nat × Code)
  | [], mods, key =>
    match key with
    | some k => .ok (mods, k)
    | none => .error (.InvalidFormat orig)
  | raw :: rest, mods, key =>
    let token := trim raw
    if token.isEmpty then .error (.EmptyToken orig)
    else if key.isSome then .error (.InvalidFormat orig)
    else
      match modTable.lookup (toUpper token) with
      | some m => parseTokens orig rest (mods ||| m) key
      | none =>
        match parse_key token with
        | .ok k => parseTokens orig rest mods (some k)
        | .error e => .error e

/-- Dispatch of `parse_hotkey` on the token count: a single token is parsed
directly as a key (untrimmed); otherwise the token loop runs. -/
def parseTop (orig : Str) (tokens : List Str) : Except HotKeyParseError HotKey :=
  match tokens with
  | [t] => (parse_key t).map fun k => HotKey.new (some 0) k
  | ts => (parseTokens orig ts 0 none).map fun p => HotKey.new (some p.1) p.2

/-- `src/src/hotkey.rs::parse_hotkey` (also `HotKey::from_str`). -/
def parse_hotkey (s : Str) : Except HotKeyParseError HotKey :=
  parseTop s (splitPlus s)

instance {ε α : Type} [DecidableEq ε] [DecidableEq α] :
    DecidableEq (Except ε α) := fun x y =>
  match x, y with
  | .ok a, .ok b =>
    if h : a = b then .isTrue (congrArg Except.ok h)
    else .isFalse (fun hc => h (by injection hc))
  | .error a, .error b =>
    if h : a = b then .isTrue (congrArg Except.error h)
    else .isFalse (fun hc => h (by injection hc))
  | .ok _, .error _ => .isFalse (fun hc => by injection hc)
  | .error _, .ok _ => .isFalse (fun hc => by injection hc)


/-- The subsets of the base modifier set {SHIFT, CONTROL, ALT, SUPER}:
the valid modifier combinations of the round-trip property. -/
def baseSubsets : List Nat :=
  [0, Modifiers.SHIFT, Modifiers.CONTROL, Modifiers.ALT, Modifiers.SUPER,
   Modifiers.SHIFT ||| Modifiers.CONTROL, Modifiers.SHIFT ||| Modifiers.ALT,
   Modifiers.SHIFT ||| Modifiers.SUPER, Modifiers.CONTROL ||| Modifiers.ALT,
   Modifiers.CONTROL ||| Modifiers.SUPER, Modifiers.ALT ||| Modifiers.SUPER,
   Modifiers.SHIFT ||| Modifiers.CONTROL ||| Modifiers.ALT,
   Modifiers.SHIFT ||| Modifiers.CONTROL ||| Modifiers.SUPER,
   Modifiers.SHIFT ||| Modifiers.ALT ||| Modifiers.SUPER,
   Modifiers.CONTROL ||| Modifiers.ALT ||| Modifiers.SUPER,
   Modifiers.SHIFT ||| Modifiers.CONTROL ||| Modifiers.ALT ||| Modifiers.SUPER]

/-- The grammar's recognized key set: every code the table of `parse_key`
can produce. -/
def recognizedKeys : List Code := (keyTable.map Prod.snd).eraseDups

/-- The `device_query::Keycode` constructors this development needs:
the physical modifier keys plus a few plain keys. -/
inductive Keycode
  | LShift | RShift | LControl | RControl | LAlt | RAlt | LMeta | RMeta
  | A | C | X
  deriving DecidableEq

/-- `src/src/main.rs::keycode_to_code`, restricted to the `Keycode`
constructors above. -/
def keycode_to_code : Keycode → Code
  | .LShift => Code.ShiftLeft
  | .RShift => Code.ShiftRight
  | .LControl => Code.ControlLeft
  | .RControl => Code.ControlRight
  | .LAlt => Code.AltLeft
  | .RAlt => Code.AltRight
  | .LMeta => Code.MetaLeft
  | .RMeta => Code.MetaRight
  | .A => Code.KeyA
  | .C => Code.KeyC
  | .X => Code.KeyX

/-- `HotKey::check` in `src/src/hotkey.rs`: fold the held keycodes into a
modifier mask and a last-seen main key, then match. -/
def HotKey.check (h : HotKey) (codes : List Keycode) : Bool :=
  let folded := codes.foldl
    (fun (acc : Nat × Option Keycode) key =>
      match key with
      | .LShift | .RShift => (acc.1 ||| Modifiers.SHIFT, acc.2)
      | .LControl | .RControl => (acc.1 ||| Modifiers.CONTROL, acc.2)
      | .LAlt | .RAlt => (acc.1 ||| Modifiers.ALT, acc.2)
      | .LMeta | .RMeta => (acc.1 ||| Modifiers.SUPER, acc.2)
      | other => (acc.1, some other))
    (0, none)
  match folded.2 with
  | none => false
  | some c => h.matches folded.1 (keycode_to_code c)

/-- `src/src/daemon.rs::Daemon`, restricted to its logical state: the
pressed-key buffer (only mutated by key edges), the target hotkey and the
listening flag. -/
structure Daemon where
  pressed : List Keycode
  hotkey : HotKey
  listening : Bool

/-- `Daemon::is_pressed`. -/
def Daemon.is_pressed (d : Daemon) : Bool := d.hotkey.check d.pressed

/-- `Daemon::get_pressed`: report a match only while listening; on a match
clear the pressed buffer and stop listening. -/
def Daemon.get_pressed (d : Daemon) : Bool × Daemon :=
  if d.listening && d.is_pressed then
    (true, { d with pressed := [], listening := false })
  else (false, d)

/-- Number of matches reported over `n` consecutive poll ticks during
which no key edge arrives (held keys produce no edges, so the buffer is
only changed by `get_pressed` itself). -/
def Daemon.fireCount (d : Daemon) : Nat → Nat
  | 0 => 0
  | n + 1 =>
    let r := d.get_pressed
    (if r.1 then 1 else 0) + r.2.fireCount n

/-- `cleave-daemon/src/hotkey.rs::HotKey` (modifier bits plus a
`device_query` keycode). -/
structure DaemonHotKey where
  mods : Nat
  key : Keycode
  deriving DecidableEq

/-- `cleave-daemon` `HotKey::matches`: held modifiers masked to the base
four, and the event key. -/
def DaemonHotKey.matches (h : DaemonHotKey) (modifiers : Nat) (key : Keycode) :
    Bool :=
  h.mods == (modifiers &&& Modifiers.base) && h.key == key

/-- Modelled from the spec: `Modifiers::from_keycode` lives in
`cleave-daemon/src/modifiers.rs`, which is not among the provided sources.
Per §3 and §4.2 of the spec, a held physical modifier key contributes its
flag to the accumulated bitmask — Shift, Control, Alt keys map to their
flags and Meta keys normalize to Super — while any other key contributes
nothing. -/
def from_keycode : Keycode → Option Nat
  | .LShift | .RShift => some Modifiers.SHIFT
  | .LControl | .RControl => some Modifiers.CONTROL
  | .LAlt | .RAlt => some Modifiers.ALT
  | .LMeta | .RMeta => some Modifiers.SUPER
  | _ => none

/-- `cleave-daemon/src/main.rs::KeyAction`: one key edge. -/
structure KeyAction where
  key : Keycode
  pressed : Bool

/-- The mutable state of the `cleave-daemon` event loop: the pressed set,
the modifier accumulator, how many times `run_cleave` was invoked, and
whether the loop is still running (`break` clears it). -/
structure LoopState where
  pressed : List Keycode
  mods : Nat
  fired : Nat
  alive : Bool
  deriving DecidableEq

/-- `HashSet::insert` on the pressed set. -/
def hsInsert (l : List Keycode) (k : Keycode) : List Keycode :=
  if k ∈ l then l else k :: l

/-- `HashSet::remove` on the pressed set. -/
def hsRemove (l : List Keycode) (k : Keycode) : List Keycode :=
  l.filter (fun x => x ≠ k)

/-- One iteration of the `for event in rx.iter()` loop in
`cleave-daemon/src/main.rs::main`: update the modifier accumulator and the
pressed set from the edge, then on a press matching the hotkey invoke the
hand-off, clear both, and break unless persistent. -/
def loopStep (persist : Bool) (hk : DaemonHotKey) (s : LoopState)
    (e : KeyAction) : LoopState :=
  if !s.alive then s
  else
    let mods :=
      match from_keycode e.key with
      | some m =>
        if e.pressed then s.mods ||| m else s.mods &&& (0xFFFFFFFF ^^^ m)
      | none => s.mods
    let pressed :=
      if e.pressed then hsInsert s.pressed e.key else hsRemove s.pressed e.key
    if hk.matches mods e.key && e.pressed then
      { pressed := [], mods := 0, fired := s.fired + 1, alive := persist }
    else
      { s with mods := mods, pressed := pressed }

/-- Run the `cleave-daemon` event loop over a finite edge trace. -/
def runLoop (persist : Bool) (hk : DaemonHotKey) (events : List KeyAction) :
    LoopState :=
  events.foldl (loopStep persist hk) { pressed := [], mods := 0, fired := 0, alive := true }

/-- `wgpu::core::command::Rect<f32>`, embedded over `ℚ`. -/
structure Rect where
  x : ℚ
  y : ℚ
  w : ℚ
  h : ℚ
  deriving DecidableEq

/-- `src/src/selection/modes.rs::SelectionMode`. -/
inductive SelectionMode
  | Move | InverseResize | Resize
  deriving DecidableEq

/-- `src/src/selection/modes.rs::Direction`. -/
inductive Direction
  | Up | Down | Left | Right
  deriving DecidableEq

/-- `src/src/selection/mod.rs::UserSelection`. -/
structure UserSelection where
  drag : Option Rect
  selection : Option Rect
  deriving DecidableEq

/-- `src/src/app/state.rs::CleaveState`. -/
structure CleaveState where
  selection : UserSelection
  mouse_position : ℚ × ℚ
  mode : SelectionMode
  size : Option (ℚ × ℚ)
  mods : Nat
  deriving DecidableEq

/-- Rust `f32::clamp(lo, hi)`. -/
def clampQ (v lo hi : ℚ) : ℚ := min (max v lo) hi

/-- `CleaveState::start_drag`: ignore the press when an existing drag has
both anchor coordinates non-zero; otherwise begin a zero-delta drag at the
mouse position. -/
def CleaveState.start_drag (s : CleaveState) : CleaveState :=
  let ignore : Bool :=
    match s.selection.drag with
    | some d => d.x != 0 && d.y != 0
    | none => false
  if ignore then s
  else
    { s with
      selection :=
        { s.selection with
          drag := some ⟨s.mouse_position.1, s.mouse_position.2, 0, 0⟩ } }

/-- `CleaveState::end_drag`: move the drag (even `none`) into the
selection. -/
def CleaveState.end_drag (s : CleaveState) : CleaveState :=
  { s with selection := { drag := none, selection := s.selection.drag } }

/-- `CleaveState::cancel_drag`. -/
def CleaveState.cancel_drag (s : CleaveState) : CleaveState :=
  { s with selection := { drag := none, selection := none } }

/-- `CleaveState::set_mode`. -/
def CleaveState.set_mode (s : CleaveState) (m : SelectionMode) : CleaveState :=
  { s with mode := m }

/-- `CleaveState::size` (the setter method). -/
def CleaveState.set_size (s : CleaveState) (wh : ℚ × ℚ) : CleaveState :=
  { s with size := some wh }

/-- `CleaveState::handle_move`: no-op without a viewport size or a
committed selection; otherwise nudge the selection one unit in `dir`,
per mode, clamping each touched component to `[0, width]` or
`[0, height]`. -/
def CleaveState.handle_move (s : CleaveState) (dir : Direction) : CleaveState :=
  match s.size, s.selection.selection with
  | some wh, some sel =>
    let dxy : ℚ × ℚ :=
      match dir with
      | .Up => (0, -1)
      | .Down => (0, 1)
      | .Left => (-1, 0)
      | .Right => (1, 0)
    let xdel : ℚ × ℚ :=
      match s.mode with
      | .Move => dxy
      | .InverseResize => dxy
      | .Resize => (0, 0)
    let sel1 :=
      match s.mode with
      | .Move | .InverseResize =>
        { sel with
          x := clampQ (sel.x + xdel.1) 0 wh.1
          y := clampQ (sel.y + xdel.2) 0 wh.2 }
      | .Resize => sel
    let sel2 :=
      match s.mode with
      | .Move | .Resize =>
        { sel1 with
          w := clampQ (sel1.w + dxy.1) 0 wh.1
          h := clampQ (sel1.h + dxy.2) 0 wh.2 }
      | .InverseResize => sel1
    { s with selection := { s.selection with selection := some sel2 } }
  | _, _ => s

/-- `winit::event::ElementState`. -/
inductive ElemState
  | Pressed | Released
  deriving DecidableEq

/-- `winit::event::MouseButton`, restricted to the buttons the handler
names. -/
inductive MouseBtn
  | Left | Right | Middle
  deriving DecidableEq

/-- The `winit::keyboard::KeyCode` values `handle_key` names, plus a stand-in
for all others. -/
inductive KeyCode
  | ArrowUp | ArrowDown | ArrowLeft | ArrowRight | ShiftLeft | ControlLeft
  | Other
  deriving DecidableEq

/-- The `winit::event::WindowEvent` cases `handle_event` handles. -/
inductive WEvent
  | KeyboardInput (state : ElemState) (code : KeyCode)
  | ModifiersChanged (m : Nat)
  | CursorMoved (x y : ℚ)
  | MouseInput (state : ElemState) (button : MouseBtn)

/-- `CleaveState::handle_key`. -/
def CleaveState.handle_key (s : CleaveState) (st : ElemState) (code : KeyCode) :
    CleaveState :=
  match st, code with
  | .Pressed, .ArrowUp => s.handle_move .Up
  | .Pressed, .ArrowDown => s.handle_move .Down
  | .Pressed, .ArrowLeft => s.handle_move .Left
  | .Pressed, .ArrowRight => s.handle_move .Right
  | .Pressed, .ShiftLeft => s.set_mode .InverseResize
  | .Released, .ShiftLeft => s.set_mode .Move
  | .Released, .ControlLeft => s.set_mode .Move
  | .Pressed, .ControlLeft => s.set_mode .Resize
  | _, _ => s

/-- `CleaveState::handle_event`. -/
def CleaveState.handle_event (s : CleaveState) (e : WEvent) : CleaveState :=
  match e with
  | .KeyboardInput st code => s.handle_key st code
  | .ModifiersChanged m => { s with mods := m }
  | .CursorMoved px py =>
    let s1 := { s with mouse_position := (px, py) }
    match s1.selection.drag with
    | some d =>
      { s1 with
        selection :=
          { s1.selection with
            drag := some { d with w := px - d.x, h := py - d.y } } }
    | none => s1
  | .MouseInput .Pressed .Left => s.start_drag
  | .MouseInput .Released .Left => s.end_drag
  | .MouseInput _ .Right => s.cancel_drag
  | .MouseInput _ _ => s

/-- Rust `as u32` on a non-negative-or-saturating integer cast (`i64`-wide
ceil/floor values saturate into the `u32` range). -/
def i2u32 (z : ℤ) : ℕ := min z.toNat (2 ^ 32 - 1)

/-- A pixel rectangle after rounding (`Rect<u32>` in `crop_image`). -/
structure RectN where
  x : ℕ
  y : ℕ
  w : ℕ
  h : ℕ
  deriving DecidableEq

/-- The rectangle computation of `src/src/util/mod.rs::crop_image`: an
externally supplied region takes precedence over the interactive
selection; the origin is rounded up and the extent rounded down before
slicing the source image. -/
def crop_image_rect (region : Option Rect) (selection : Rect) : RectN :=
  let rect := region.getD selection
  ⟨i2u32 ⌈rect.x⌉, i2u32 ⌈rect.y⌉, i2u32 ⌊rect.w⌋, i2u32 ⌊rect.h⌋⟩

/-- The daemon's default target (`Shift+X` of `cleave-daemon/src/main.rs`). -/
def shiftX : DaemonHotKey := ⟨Modifiers.SHIFT, Keycode.X⟩

/-- A token that resolves to a modifier alias: non-blank after trimming and
found in the modifier alias table. -/
def isModAlias (t : Str) : Prop :=
  trim t ≠ [] ∧ (modTable.lookup (toUpper (trim t))).isSome = true

instance (t : Str) : Decidable (isModAlias t) := by
  unfold isModAlias; infer_instance

theorem parseTop_multi (orig : Str) (l : List Str) (h : 2 ≤ l.length) :
    parseTop orig l =
      (parseTokens orig l 0 none).map fun p => HotKey.new (some p.1) p.2 := by
  cases l with
  | nil => simp at h
  | cons a l' =>
    cases l' with
    | nil => simp at h
    | cons b rest => rfl

theorem parseTokens_blank (orig b : Str) (rest : List Str) (mods : Nat)
    (key : Option Code) (hb : trim b = []) :
    parseTokens orig (b :: rest) mods key = .error (.EmptyToken orig) := by
  simp [parseTokens, hb]

theorem parseTokens_after_key (orig t : Str) (rest : List Str) (mods : Nat)
    (k : Code) (ht : trim t ≠ []) :
    parseTokens orig (t :: rest) mods (some k) = .error (.InvalidFormat orig) := by
  cases htrim : trim t with
  | nil => exact absurd htrim ht
  | cons c cs => simp [parseTokens, htrim]

theorem parseTokens_mod_step (orig a : Str) (rest : List Str) (mods m : Nat)
    (hne : trim a ≠ []) (hm : modTable.lookup (toUpper (trim a)) = some m) :
    parseTokens orig (a :: rest) mods none =
      parseTokens orig rest (mods ||| m) none := by
  cases htrim : trim a with
  | nil => exact absurd htrim hne
  | cons c cs =>
    rw [htrim] at hm
    simp [parseTokens, htrim, hm]

theorem parseTokens_key_step (orig ktok : Str) (rest : List Str) (mods : Nat)
    (k : Code) (hne : trim ktok ≠ [])
    (hmod : modTable.lookup (toUpper (trim ktok)) = none)
    (hkey : parse_key (trim ktok) = .ok k) :
    parseTokens orig (ktok :: rest) mods none =
      parseTokens orig rest mods (some k) := by
  cases htrim : trim ktok with
  | nil => exact absurd htrim hne
  | cons c cs =>
    rw [htrim] at hmod hkey
    simp [parseTokens, htrim, hmod, hkey]

theorem parseTokens_mod_pre (orig : Str) (pre : List Str) :
    ∀ (rest : List Str) (mods : Nat), (∀ t ∈ pre, isModAlias t) →
      ∃ mods', parseTokens orig (pre ++ rest) mods none =
        parseTokens orig rest mods' none := by
  induction pre with
  | nil => exact fun rest mods _ => ⟨mods, rfl⟩
  | cons a pre ih =>
    intro rest mods hall
    obtain ⟨hne, hsome⟩ := hall a (List.mem_cons_self a pre)
    obtain ⟨m, hm⟩ := Option.isSome_iff_exists.mp hsome
    obtain ⟨mods', h'⟩ :=
      ih rest (mods ||| m) (fun t ht => hall t (List.mem_cons_of_mem a ht))
    exact ⟨mods', (parseTokens_mod_step orig a (pre ++ rest) mods m hne hm).trans h'⟩

/-- C7 counterexample: the input `""` consists of one segment that is blank
after trimming, yet `parse` fails with `UnsupportedKey ""` (the single-token
arm bypasses the blank check), not with `EmptyToken`. -/
theorem empty_token_counterexample :
    parse_hotkey (str "") = .error (.UnsupportedKey (str "")) ∧
    parse_hotkey (str "") ≠ .error (.EmptyToken (str "")) := by
  exact ⟨by decide, by decide⟩

/-- C7 (amended): for every input with at least two `+`-delimited segments
in which some segment is blank after trimming and every earlier segment
resolves to a modifier alias, `parse` fails with `EmptyToken` carrying the
original string; in particular `parse("Ctrl++C")` returns `EmptyToken`.
(A blank single-segment input instead fails with `UnsupportedKey`, and a
non-modifier segment before the blank one produces its own error first.) -/
theorem empty_token_error :
    (∀ (s b : Str) (pre suf : List Str),
      splitPlus s = pre ++ b :: suf →
      2 ≤ (splitPlus s).length →
      (∀ t ∈ pre, isModAlias t) →
      trim b = [] →
      parse_hotkey s = .error (.EmptyToken s)) ∧
    parse_hotkey (str "Ctrl++C") = .error (.EmptyToken (str "Ctrl++C")) := by
  constructor
  · intro s b pre suf hsplit hlen hpre hb
    have hmulti := parseTop_multi s (splitPlus s) hlen
    rw [hsplit] at hmulti
    obtain ⟨mods', hpre'⟩ := parseTokens_mod_pre s pre (b :: suf) 0 hpre
    unfold parse_hotkey
    rw [hsplit, hmulti, hpre', parseTokens_blank s b suf mods' none hb]
    rfl
  · decide

/-- C7 witness: the general part of `empty_token_error` applied to the
concrete input `Ctrl++C`. -/
theorem empty_token_error_witness :
    parse_hotkey (str "Ctrl++C") = .error (.EmptyToken (str "Ctrl++C")) :=
  empty_token_error.1 (str "Ctrl++C") (str "") [str "Ctrl"] [str "C"]
    (by decide) (by decide) (by decide) (by decide)

/-- C6 counterexample: in the input `"Ctrl"` no token resolves to a main
key, yet `parse` fails with `UnsupportedKey "Ctrl"` (the single-token arm
parses the bare modifier name as a key), not with `InvalidFormat`. -/
theorem ordering_no_main_key_counterexample :
    parse_hotkey (str "Ctrl") = .error (.UnsupportedKey (str "Ctrl")) ∧
    parse_hotkey (str "Ctrl") ≠ .error (.InvalidFormat (str "Ctrl")) := by
  exact ⟨by decide, by decide⟩

/-- C6 (amended): once a main-key token has been consumed, the next
processed token, when non-blank, makes the whole parse fail with
`InvalidFormat` carrying the original string; a multi-token input in which
every token resolves to a modifier alias (so none resolves to a main key)
also fails with `InvalidFormat`; in particular `parse("Ctrl+C+Shift")` and
`parse("Ctrl+Shift+C+A")` both return `InvalidFormat`. (A single-token
input with no main key instead fails with `UnsupportedKey`, and a blank
token after the main key fails with `EmptyToken`.) -/
theorem grammar_ordering :
    (∀ (s ktok t : Str) (pre suf : List Str) (k : Code),
      splitPlus s = pre ++ ktok :: t :: suf →
      (∀ x ∈ pre, isModAlias x) →
      trim ktok ≠ [] →
      modTable.lookup (toUpper (trim ktok)) = none →
      parse_key (trim ktok) = .ok k →
      trim t ≠ [] →
      parse_hotkey s = .error (.InvalidFormat s)) ∧
    (∀ s : Str,
      2 ≤ (splitPlus s).length →
      (∀ t ∈ splitPlus s, isModAlias t) →
      parse_hotkey s = .error (.InvalidFormat s)) ∧
    parse_hotkey (str "Ctrl+C+Shift") =
      .error (.InvalidFormat (str "Ctrl+C+Shift")) ∧
    parse_hotkey (str "Ctrl+Shift+C+A") =
      .error (.InvalidFormat (str "Ctrl+Shift+C+A")) := by
  refine ⟨?_, ?_, by decide, by decide⟩
  · intro s ktok t pre suf k hsplit hpre hktrim hkmod hkkey ht
    have hlen : 2 ≤ (splitPlus s).length := by
      rw [hsplit]; simp; omega
    have hmulti := parseTop_multi s (splitPlus s) hlen
    rw [hsplit] at hmulti
    obtain ⟨mods', hpre'⟩ := parseTokens_mod_pre s pre (ktok :: t :: suf) 0 hpre
    unfold parse_hotkey
    rw [hsplit, hmulti, hpre',
      parseTokens_key_step s ktok (t :: suf) mods' k hktrim hkmod hkkey,
      parseTokens_after_key s t suf mods' k ht]
    rfl
  · intro s hlen hall
    have hmulti := parseTop_multi s (splitPlus s) hlen
    obtain ⟨mods', hpre'⟩ :=
      parseTokens_mod_pre s (splitPlus s) [] 0 hall
    rw [List.append_nil] at hpre'
    unfold parse_hotkey
    rw [hmulti, hpre']
    rfl

/-- C6 witness: the two universal parts of `grammar_ordering` applied to
the concrete inputs `Ctrl+C+X` and `Ctrl+Shift`. -/
theorem grammar_ordering_witness :
    parse_hotkey (str "Ctrl+C+X") = .error (.InvalidFormat (str "Ctrl+C+X")) ∧
    parse_hotkey (str "Ctrl+Shift") =
      .error (.InvalidFormat (str "Ctrl+Shift")) :=
  ⟨grammar_ordering.1 (str "Ctrl+C+X") (str "C") (str "X") [str "Ctrl"] []
      Code.KeyC (by decide) (by decide) (by decide) (by decide) (by decide)
      (by decide),
    grammar_ordering.2.1 (str "Ctrl+Shift") (by decide) (by decide)⟩

set_option maxHeartbeats 4000000 in
set_option maxRecDepth 10000 in
theorem roundtrip_all : ∀ m ∈ baseSubsets, ∀ k ∈ recognizedKeys,
    parse_hotkey (HotKey.into_string (HotKey.new (some m) k)) =
      .ok (HotKey.new (some m) k) := by
  decide

/-- C1: for every valid hotkey — modifiers drawn from the subsets of
{Shift, Control, Alt, Super} and a key in the grammar's recognized key
set — parsing the string `into_string` produces succeeds and returns an
equal hotkey. -/
theorem hotkey_roundtrip (m : Nat) (k : Code) (hm : m ∈ baseSubsets)
    (hk : k ∈ recognizedKeys) :
    parse_hotkey (HotKey.into_string (HotKey.new (some m) k)) =
      .ok (HotKey.new (some m) k) :=
  roundtrip_all m hm k hk

/-- C1 witness: the round trip at the concrete hotkey `Shift+KeyC`. -/
theorem hotkey_roundtrip_witness :
    Modifiers.SHIFT ∈ baseSubsets ∧ Code.KeyC ∈ recognizedKeys ∧
    parse_hotkey (HotKey.into_string
        (HotKey.new (some Modifiers.SHIFT) Code.KeyC)) =
      .ok (HotKey.new (some Modifiers.SHIFT) Code.KeyC) :=
  ⟨by decide, by decide,
    hotkey_roundtrip Modifiers.SHIFT Code.KeyC (by decide) (by decide)⟩

/-- C2 counterexample: the modifier table of `src/src/hotkey.rs` has no
`META` arm, so `parse("Meta+K")` does not succeed: the token `Meta` falls
through to the key table and fails with `UnsupportedKey "Meta"`. -/
theorem meta_alias_counterexample :
    parse_hotkey (str "Meta+K") = .error (.UnsupportedKey (str "Meta")) := by
  decide

/-- C2 (amended): `parse` does not accept the token `Meta` — `Meta+K`
fails with `UnsupportedKey "Meta"`. The Meta-to-Super normalization exists
only in the constructor: building a hotkey with the `META` flag yields
exactly the hotkey built with `SUPER`, which is the hotkey `parse`
returns for `Super+K`. -/
theorem meta_normalizes_in_constructor :
    parse_hotkey (str "Meta+K") = .error (.UnsupportedKey (str "Meta")) ∧
    HotKey.new (some Modifiers.META) Code.KeyK =
      HotKey.new (some Modifiers.SUPER) Code.KeyK ∧
    parse_hotkey (str "Super+K") =
      .ok (HotKey.new (some Modifiers.META) Code.KeyK) := by
  exact ⟨by decide, by decide, by decide⟩

theorem contains_meta_eq_testBit (mods : Nat) :
    Modifiers.contains mods Modifiers.META = mods.testBit 6 := by
  have h64 : (Modifiers.META : ℕ) = 2 ^ 6 := by norm_num [Modifiers.META]
  unfold Modifiers.contains
  rw [h64, Nat.and_two_pow]
  cases h6 : mods.testBit 6 <;> simp

/-- C9: the constructor sanitizes Meta — for every modifier bitmask, the
hotkey built by `HotKey::new` carries no `META` flag (bit 6 is clear), its
`SUPER` flag (bit 13) is set exactly when `SUPER` or `META` was set in the
input, and every other flag is exactly as supplied. -/
theorem constructor_sanitizes_meta (mods : Nat) (k : Code)
    (hm : mods < 2 ^ 32) :
    ((HotKey.new (some mods) k).mods.testBit 6 = false) ∧
    ((HotKey.new (some mods) k).mods.testBit 13 =
      (mods.testBit 13 || mods.testBit 6)) ∧
    (∀ i, i ≠ 6 → i ≠ 13 →
      (HotKey.new (some mods) k).mods.testBit i = mods.testBit i) := by
  have hdef : (HotKey.new (some mods) k).mods =
      (if Modifiers.contains mods Modifiers.META then
        Modifiers.insert (Modifiers.remove mods Modifiers.META) Modifiers.SUPER
      else mods) := rfl
  have hhigh : ∀ i, 32 ≤ i → mods.testBit i = false := by
    intro i hi
    exact Nat.testBit_lt_two_pow
      (lt_of_lt_of_le hm (Nat.pow_le_pow_right (by norm_num) hi))
  rw [hdef, contains_meta_eq_testBit]
  cases h6 : mods.testBit 6 with
  | false =>
    rw [if_neg (by simp)]
    exact ⟨h6, by simp, fun i _ _ => rfl⟩
  | true =>
    rw [if_pos rfl]
    have hrm : Modifiers.insert (Modifiers.remove mods Modifiers.META)
        Modifiers.SUPER = (mods &&& ((2 ^ 32 - 1) ^^^ 2 ^ 6)) ||| 2 ^ 13 := by
      unfold Modifiers.insert Modifiers.remove Modifiers.META Modifiers.SUPER
      norm_num
    rw [hrm]
    refine ⟨?_, ?_, ?_⟩
    · rw [Nat.testBit_or, Nat.testBit_and, Nat.testBit_xor,
        Nat.testBit_two_pow_sub_one, Nat.testBit_two_pow,
        Nat.testBit_two_pow]
      simp
    · rw [Nat.testBit_or, Nat.testBit_and, Nat.testBit_xor,
        Nat.testBit_two_pow_sub_one, Nat.testBit_two_pow,
        Nat.testBit_two_pow]
      simp
    · intro i hi6 hi13
      rw [Nat.testBit_or, Nat.testBit_and, Nat.testBit_xor,
        Nat.testBit_two_pow_sub_one, Nat.testBit_two_pow,
        Nat.testBit_two_pow]
      rw [decide_eq_false (by omega : ¬(6 = i)),
        decide_eq_false (by omega : ¬(13 = i))]
      by_cases hlt : i < 32
      · rw [decide_eq_true hlt]; simp
      · rw [decide_eq_false hlt, hhigh i (by omega)]; simp

/-- C9 witness: `constructor_sanitizes_meta` at the bitmask
`META ||| SHIFT`. -/
theorem constructor_sanitizes_meta_witness :
    (Modifiers.META ||| Modifiers.SHIFT) < 2 ^ 32 ∧
    ((HotKey.new (some (Modifiers.META ||| Modifiers.SHIFT))
        Code.KeyK).mods.testBit 6 = false) ∧
    ((HotKey.new (some (Modifiers.META ||| Modifiers.SHIFT))
        Code.KeyK).mods.testBit 13 = true) :=
  ⟨by decide,
    (constructor_sanitizes_meta (Modifiers.META ||| Modifiers.SHIFT) Code.KeyK
      (by decide)).1,
    by
      rw [(constructor_sanitizes_meta (Modifiers.META ||| Modifiers.SHIFT)
        Code.KeyK (by decide)).2.1]
      decide⟩

theorem fireCount_not_listening (d : Daemon) (hd : d.listening = false) :
    ∀ n, d.fireCount n = 0 := by
  intro n
  induction n with
  | zero => rfl
  | succ n ih =>
    have hget : d.get_pressed = (false, d) := by
      simp [Daemon.get_pressed, hd]
    simp [Daemon.fireCount, hget, ih]

theorem foldl_dead (p : Bool) (hk : DaemonHotKey) :
    ∀ (l : List KeyAction) (s : LoopState), s.alive = false →
      l.foldl (loopStep p hk) s = s := by
  intro l
  induction l with
  | nil => intro s _; rfl
  | cons e l ih =>
    intro s hs
    have hstep : loopStep p hk s e = s := by
      simp [loopStep, hs]
    rw [List.foldl_cons, hstep, ih s hs]

/-- C3 counterexample: in persistent mode with target `Shift+X`, the trace
press Shift, press X (fires once, clearing the modifier accumulator),
release X, press X again produces only one invocation — not the second one
the claim promises for a main-key-only release/re-press — because the
cleared accumulator no longer matches while Shift stays held (no new Shift
edge arrives). -/
theorem daemon_main_key_repress_counterexample :
    (runLoop true shiftX
      [⟨Keycode.LShift, true⟩, ⟨Keycode.X, true⟩,
       ⟨Keycode.X, false⟩, ⟨Keycode.X, true⟩]).fired = 1 ∧
    (runLoop true shiftX
      [⟨Keycode.LShift, true⟩, ⟨Keycode.X, true⟩,
       ⟨Keycode.X, false⟩, ⟨Keycode.X, true⟩]).fired ≠ 2 := by
  exact ⟨by decide, by decide⟩

/-- C3 (amended): (1) in the polling daemon of `src/src/daemon.rs`, a
listening daemon whose pressed buffer matches reports the match on exactly
one of any `n ≥ 1` consecutive poll ticks, even though the keys stay held
(no edges arrive): the listening flag is cleared and the buffer emptied on
the match; (2) in the one-shot `cleave-daemon` loop, a trace that presses
Shift then X fires the hand-off exactly once no matter what events follow
(the loop breaks); (3) in persistent mode, releasing and re-pressing the
full combination — modifiers included, since the accumulated modifier
state is cleared on a fire — causes a second invocation. -/
theorem daemon_single_fire :
    (∀ (d : Daemon) (n : ℕ), d.listening = true → d.is_pressed = true →
      1 ≤ n → d.fireCount n = 1) ∧
    (∀ rest : List KeyAction,
      (runLoop false shiftX
        (⟨Keycode.LShift, true⟩ :: ⟨Keycode.X, true⟩ :: rest)).fired = 1) ∧
    (runLoop true shiftX
      [⟨Keycode.LShift, true⟩, ⟨Keycode.X, true⟩, ⟨Keycode.X, false⟩,
       ⟨Keycode.LShift, false⟩, ⟨Keycode.LShift, true⟩,
       ⟨Keycode.X, true⟩]).fired = 2 := by
  refine ⟨?_, ?_, by decide⟩
  · intro d n h1 h2 hn
    cases n with
    | zero => omega
    | succ m =>
      have hget : d.get_pressed =
          (true, { d with pressed := [], listening := false }) := by
        simp [Daemon.get_pressed, h1, h2]
      simp [Daemon.fireCount, hget,
        fireCount_not_listening { d with pressed := [], listening := false }
          rfl m]
  · intro rest
    show (List.foldl (loopStep false shiftX)
      { pressed := [], mods := 0, fired := 0, alive := true }
      ([⟨Keycode.LShift, true⟩, ⟨Keycode.X, true⟩] ++ rest)).fired = 1
    rw [List.foldl_append]
    have h2 : List.foldl (loopStep false shiftX)
        { pressed := [], mods := 0, fired := 0, alive := true }
        [⟨Keycode.LShift, true⟩, ⟨Keycode.X, true⟩] =
        { pressed := [], mods := 0, fired := 1, alive := false } := by decide
    rw [h2, foldl_dead false shiftX rest _ rfl]

/-- C3 witness: part (1) of `daemon_single_fire` at a concrete armed
daemon holding `Shift+X` over three ticks, and part (2) at the empty
continuation. -/
theorem daemon_single_fire_witness :
    (Daemon.mk [Keycode.LShift, Keycode.X]
      (HotKey.new (some Modifiers.SHIFT) Code.KeyX) true).fireCount 3 = 1 ∧
    (runLoop false shiftX
      [⟨Keycode.LShift, true⟩, ⟨Keycode.X, true⟩]).fired = 1 :=
  ⟨daemon_single_fire.1
      (Daemon.mk [Keycode.LShift, Keycode.X]
        (HotKey.new (some Modifiers.SHIFT) Code.KeyX) true) 3 rfl (by decide)
      (by decide),
    by
      have := daemon_single_fire.2.1 []
      simpa using this⟩

/-- C4 counterexample: with viewport `100 × 100` and committed selection
`{x:50, y:0, w:50, h:10}` — whose right edge `x + w = 100` equals the
width — a rightward nudge in `Resize` mode grows `w` to `51`: the clamp is
`[0, width]` on `w` alone and never consults `x`. -/
theorem resize_right_edge_counterexample :
    (50 : ℚ) + 50 = 100 ∧
    (((⟨⟨none, some ⟨50, 0, 50, 10⟩⟩, (0, 0), SelectionMode.Resize,
        some (100, 100), 0⟩ :
      CleaveState).handle_move .Right).selection.selection.map Rect.w) =
      some 51 ∧
    (51 : ℚ) ≠ 50 := by
  refine ⟨by norm_num, ?_, by norm_num⟩
  have h : clampQ (50 + 1 : ℚ) 0 100 = 51 := by
    unfold clampQ
    rw [max_eq_left (by norm_num), min_eq_left (by norm_num)]
    norm_num
  simp [CleaveState.handle_move, h]

/-- C4 (amended): a rightward nudge in `Resize` mode sets the selection's
`w` to `clamp(w + 1, 0, width)`, independently of `x`; consequently `w` is
left unchanged when `w` itself already equals the viewport width (for a
non-negative width), not when the right edge `x + w` does. -/
theorem resize_right_nudge_clamped (s : CleaveState) (sel : Rect) (W H : ℚ)
    (hmode : s.mode = .Resize) (hsize : s.size = some (W, H))
    (hsel : s.selection.selection = some sel) :
    ((s.handle_move .Right).selection.selection.map Rect.w) =
      some (clampQ (sel.w + 1) 0 W) ∧
    (sel.w = W → 0 ≤ W →
      ((s.handle_move .Right).selection.selection.map Rect.w) = some sel.w) := by
  have h1 : ((s.handle_move .Right).selection.selection.map Rect.w) =
      some (clampQ (sel.w + 1) 0 W) := by
    simp [CleaveState.handle_move, hsize, hsel, hmode]
  refine ⟨h1, fun hw hW => ?_⟩
  rw [h1, hw]
  have : clampQ (W + 1) 0 W = W := by
    unfold clampQ
    rw [max_eq_left (by linarith), min_eq_right (by linarith)]
  rw [this]

/-- C4 witness: `resize_right_nudge_clamped` at a selection whose `w`
equals the viewport width, where the nudge indeed leaves `w` at `100`. -/
theorem resize_right_nudge_clamped_witness :
    (((⟨⟨none, some ⟨0, 0, 100, 10⟩⟩, (0, 0), SelectionMode.Resize,
        some (100, 50), 0⟩ :
      CleaveState).handle_move .Right).selection.selection.map Rect.w) =
      some 100 :=
  (resize_right_nudge_clamped
    ⟨⟨none, some ⟨0, 0, 100, 10⟩⟩, (0, 0), SelectionMode.Resize,
      some (100, 50), 0⟩
    ⟨0, 0, 100, 10⟩ 100 50 rfl rfl rfl).2 rfl (by norm_num)

/-- C5 counterexample: a primary press arriving while a drag with non-zero
delta `w = h = 10` but anchor `x = 0` is in progress is not ignored: the
guard tests the anchor coordinates, so the drag is replaced by a fresh
zero-delta drag at the mouse position `(3, 4)`. -/
theorem press_during_drag_counterexample :
    ((⟨⟨some ⟨0, 5, 10, 10⟩, none⟩, (3, 4), SelectionMode.Move, none, 0⟩ :
        CleaveState).start_drag).selection.drag = some ⟨3, 4, 0, 0⟩ ∧
    some (⟨3, 4, 0, 0⟩ : Rect) ≠ some (⟨0, 5, 10, 10⟩ : Rect) := by
  exact ⟨by decide, by decide⟩

/-- C5 (amended): a primary press during a drag is ignored precisely when
the existing drag's anchor coordinates are both non-zero (`x ≠ 0` and
`y ≠ 0`); the delta `w, h` is never consulted. Otherwise the press starts
a fresh zero-delta drag at the current mouse position, replacing the old
one. -/
theorem press_guard_anchor (s : CleaveState) (d : Rect)
    (hd : s.selection.drag = some d) :
    (d.x ≠ 0 ∧ d.y ≠ 0 → s.start_drag = s) ∧
    (¬(d.x ≠ 0 ∧ d.y ≠ 0) → (s.start_drag).selection.drag =
      some ⟨s.mouse_position.1, s.mouse_position.2, 0, 0⟩) := by
  constructor
  · rintro ⟨hx, hy⟩
    have hb : (d.x != 0 && d.y != 0) = true := by simp [hx, hy]
    simp [CleaveState.start_drag, hd, hb]
  · intro h
    have hb : (d.x != 0 && d.y != 0) = false := by
      rcases not_and_or.mp h with h' | h'
      · simp at h'
        simp [h']
      · simp at h'
        simp [h']
    simp [CleaveState.start_drag, hd, hb]

/-- C5 witness: `press_guard_anchor` at a drag anchored at `(2, 3)` (press
ignored) and at a drag anchored at `(0, 5)` with non-zero delta (drag
replaced). -/
theorem press_guard_anchor_witness :
    (⟨⟨some ⟨2, 3, 10, 10⟩, none⟩, (9, 9), SelectionMode.Move, none, 0⟩ :
        CleaveState).start_drag =
      ⟨⟨some ⟨2, 3, 10, 10⟩, none⟩, (9, 9), SelectionMode.Move, none, 0⟩ ∧
    ((⟨⟨some ⟨0, 5, 10, 10⟩, none⟩, (9, 9), SelectionMode.Move, none, 0⟩ :
        CleaveState).start_drag).selection.drag = some ⟨9, 9, 0, 0⟩ :=
  ⟨(press_guard_anchor _ ⟨2, 3, 10, 10⟩ rfl).1 (by norm_num),
    (press_guard_anchor _ ⟨0, 5, 10, 10⟩ rfl).2 (by norm_num)⟩

/-- C10: `end_drag` commits unconditionally — for every state it moves the
drag (even `none`) into the selection and clears the drag; hence a
primary-button click with no pointer movement commits a zero-extent
selection at the press point, and a primary-button release with no drag in
progress wipes any previously committed selection to `none`. -/
theorem commit_on_release :
    (∀ s : CleaveState, (s.end_drag).selection.selection = s.selection.drag ∧
      (s.end_drag).selection.drag = none) ∧
    (∀ s : CleaveState, s.selection.drag = none →
      ((s.handle_event (.MouseInput .Pressed .Left)).handle_event
        (.MouseInput .Released .Left)).selection.selection =
        some ⟨s.mouse_position.1, s.mouse_position.2, 0, 0⟩) ∧
    (∀ s : CleaveState, s.selection.drag = none →
      (s.handle_event (.MouseInput .Released .Left)).selection.selection =
        none) := by
  refine ⟨fun s => ⟨rfl, rfl⟩, ?_, ?_⟩
  · intro s hd
    simp [CleaveState.handle_event, CleaveState.start_drag,
      CleaveState.end_drag, hd]
  · intro s hd
    simp [CleaveState.handle_event, CleaveState.end_drag, hd]

/-- C10 witness: `commit_on_release` at a state with a previously
committed selection and no drag: a click commits the zero-extent rectangle
at the mouse position `(7, 8)`, and a bare release discards the stored
selection. -/
theorem commit_on_release_witness :
    (((⟨⟨none, some ⟨1, 2, 3, 4⟩⟩, (7, 8), SelectionMode.Move, none, 0⟩ :
        CleaveState).handle_event (.MouseInput .Pressed .Left)).handle_event
        (.MouseInput .Released .Left)).selection.selection =
      some ⟨7, 8, 0, 0⟩ ∧
    ((⟨⟨none, some ⟨1, 2, 3, 4⟩⟩, (7, 8), SelectionMode.Move, none, 0⟩ :
        CleaveState).handle_event
        (.MouseInput .Released .Left)).selection.selection = none :=
  ⟨commit_on_release.2.1
      ⟨⟨none, some ⟨1, 2, 3, 4⟩⟩, (7, 8), SelectionMode.Move, none, 0⟩ rfl,
    commit_on_release.2.2
      ⟨⟨none, some ⟨1, 2, 3, 4⟩⟩, (7, 8), SelectionMode.Move, none, 0⟩ rfl⟩

/-- C8: `crop_image` rounds the crop rectangle's origin up and its extent
down — the computed pixel rectangle is exactly
`(⌈x⌉, ⌈y⌉, ⌊w⌋, ⌊h⌋)` — and for the selection
`{x:10.4, y:10.6, w:19.7, h:19.2}` the crop has origin `(11, 11)` and
extent `(19, 19)`. -/
theorem crop_rounding :
    (∀ sel : Rect, crop_image_rect none sel =
      ⟨i2u32 ⌈sel.x⌉, i2u32 ⌈sel.y⌉, i2u32 ⌊sel.w⌋, i2u32 ⌊sel.h⌋⟩) ∧
    crop_image_rect none ⟨10.4, 10.6, 19.7, 19.2⟩ = ⟨11, 11, 19, 19⟩ := by
  refine ⟨fun sel => rfl, ?_⟩
  have hx : ⌈(10.4 : ℚ)⌉ = 11 := by
    rw [Int.ceil_eq_iff]
    norm_num
  have hy : ⌈(10.6 : ℚ)⌉ = 11 := by
    rw [Int.ceil_eq_iff]
    norm_num
  have hw : ⌊(19.7 : ℚ)⌋ = 19 := by
    rw [Int.floor_eq_iff]
    norm_num
  have hh : ⌊(19.2 : ℚ)⌋ = 19 := by
    rw [Int.floor_eq_iff]
    norm_num
  simp [crop_image_rect, hx, hy, hw, hh, i2u32]
